import Mathlib

/-!
Verification of the clustercheck aggregation core (pkg/gatecheck, pkg/fluxcheck,
pkg/monitoringcheck) against its specification.

Modelling conventions:
* Go `float64` arithmetic on the health score is modelled by exact rationals `ℚ`;
  the score expression `(float64(passed) / float64(total)) * 100` is the same
  rational expression, and the threshold comparison `>= 80.0` is `80 ≤ _` on `ℚ`.
* The outcomes of the external probes (Kubernetes pod listing, Flux resource
  listing, the Bitwarden CLI, and each Prometheus HTTP query) are inputs of the
  embedded `GateCheck`, collected in a `GateEnv` record: `none`/`Except.ok`
  stands for a nil Go error, `some msg`/`Except.error msg` for a non-nil error
  whose `Error()` text is `msg`.
* Printing (the colored report) is ignored; the embedding keeps the data that
  the functions compute and return.
* Braces inside PromQL query strings are written with the escapes \x7b and \x7d.
-/

namespace Clustercheck

/-- pkg/gatecheck: `CheckResult` — result of one health check. -/
structure CheckResult where
  name : String
  passed : Bool
  message : String
deriving DecidableEq, Repr

/-- pkg/gatecheck: `GateCheckResult` — the overall gate check result.
Counters are `Nat` (the Go `int` fields are only ever incremented from 0),
`HealthScore` is `ℚ` for Go `float64`. -/
structure GateCheckResult where
  totalChecks : Nat
  passedChecks : Nat
  failedChecks : Nat
  healthScore : ℚ
  checkResults : List CheckResult
  overallPassed : Bool
deriving DecidableEq, Repr

/-- pkg/monitoringcheck: `PrometheusQueries` — one entry of a static query table. -/
structure PrometheusQueries where
  description : String
  query : String
deriving DecidableEq, Repr

/-- The static query table of `runPrometheusChecks` (pkg/gatecheck), built from
the resolved cluster identifier and the short (pre-FQDN) cluster identifier,
exactly as in the Go source. -/
def gateQueries (cluster shortCluster : String) : List PrometheusQueries :=
  [ { description := "APISERVER",
      query := "avg(up\x7bjob=\"kube-apiserver\",cluster=\"" ++ cluster ++ "\"\x7d)" },
    { description := "CLUSTER",
      query := "capi_cluster_status_phase\x7bphase=\"Provisioned\", tenantcluster=\"" ++ shortCluster ++ "\"\x7d == 1" },
    { description := "FLUENTBIT_OK",
      query := "count(max(fluentbit_output_errors_total\x7bcluster=\"" ++ cluster ++ "\"\x7d) + 1)" },
    { description := "FLUENTD_OK",
      query := "count(max(fluentd_output_status_num_errors\x7bcluster=\"" ++ cluster ++ "\"\x7d) + 1)" },
    { description := "GOLDPINGER",
      query := "avg(goldpinger_cluster_health_total\x7bcluster=\"" ++ cluster ++ "\"\x7d)" },
    { description := "KUBEDNS",
      query := "avg(up\x7bjob=\"kube-dns\", cluster=\"" ++ cluster ++ "\"\x7d)" },
    { description := "KUBELET",
      query := "clamp((count(up\x7bjob=\"kubelet\", cluster=\"" ++ cluster ++ "\"\x7d) > 3),1,1)" },
    { description := "NETWORKOPERATOR",
      query := "clamp(avg(nwop_netlink_routes_fib\x7bprotocol=\"bgp\",vrf=\"main\",cluster=\"" ++ cluster ++ "\"\x7d),1,1)" },
    { description := "NODE",
      query := "min(kube_node_status_condition\x7bcondition=\"Ready\",status=\"true\",cluster=\"" ++ cluster ++ "\"\x7d)" },
    { description := "STORAGECHECK",
      query := "clamp((increase(storage_check_success_total\x7bcluster=\"" ++ cluster ++ "\"\x7d[1h]) > 1),1,1) OR (storage_check_failure_total\x7bcluster=\"" ++ cluster ++ "\"\x7d > 0)" },
    { description := "PROMETHEUSAGENT",
      query := "avg(up\x7bjob=\"prometheus-agent\",cluster=\"" ++ cluster ++ "\"\x7d)" },
    { description := "SYSTEMPODS",
      query := "clamp(sum(kube_pod_status_phase\x7bnamespace=~\".*-system\", phase!~\"Running|Succeeded\",cluster=\"" ++ cluster ++ "\"\x7d == 0),1,1)" } ]

/-- The static query table of `Run` (pkg/monitoringcheck, default CLI mode).
It differs from `gateQueries` in the two FLUENT entries. -/
def runQueries (cluster shortCluster : String) : List PrometheusQueries :=
  [ { description := "APISERVER",
      query := "avg(up\x7bjob=\"kube-apiserver\",cluster=\"" ++ cluster ++ "\"\x7d)" },
    { description := "CLUSTER",
      query := "capi_cluster_status_phase\x7bphase=\"Provisioned\", tenantcluster=\"" ++ shortCluster ++ "\"\x7d == 1" },
    { description := "FLUENTBITERRORS",
      query := "rate(fluentbit_output_errors_total\x7bcluster=\"" ++ cluster ++ "\"\x7d[1h])) > 0" },
    { description := "FLUENTDERRORS",
      query := "avg(fluentd_output_status_num_errors\x7bcluster=\"" ++ cluster ++ "\"\x7d) > 0" },
    { description := "GOLDPINGER",
      query := "avg(goldpinger_cluster_health_total\x7bcluster=\"" ++ cluster ++ "\"\x7d)" },
    { description := "KUBEDNS",
      query := "avg(up\x7bjob=\"kube-dns\", cluster=\"" ++ cluster ++ "\"\x7d)" },
    { description := "KUBELET",
      query := "clamp((count(up\x7bjob=\"kubelet\", cluster=\"" ++ cluster ++ "\"\x7d) > 3),1,1)" },
    { description := "NETWORKOPERATOR",
      query := "clamp(avg(nwop_netlink_routes_fib\x7bprotocol=\"bgp\",vrf=\"main\",cluster=\"" ++ cluster ++ "\"\x7d),1,1)" },
    { description := "NODE",
      query := "min(kube_node_status_condition\x7bcondition=\"Ready\",status=\"true\",cluster=\"" ++ cluster ++ "\"\x7d)" },
    { description := "STORAGECHECK",
      query := "clamp((increase(storage_check_success_total\x7bcluster=\"" ++ cluster ++ "\"\x7d[1h]) > 1),1,1) OR (storage_check_failure_total\x7bcluster=\"" ++ cluster ++ "\"\x7d > 0)" },
    { description := "PROMETHEUSAGENT",
      query := "avg(up\x7bjob=\"prometheus-agent\",cluster=\"" ++ cluster ++ "\"\x7d)" },
    { description := "SYSTEMPODS",
      query := "clamp(sum(kube_pod_status_phase\x7bnamespace=~\".*-system\", phase!~\"Running|Succeeded\",cluster=\"" ++ cluster ++ "\"\x7d == 0),1,1)" } ]

/-- pkg/gatecheck `runPrometheusChecks` loop body classification of a query
result that arrived without error: `if result == "1"` then the check passes,
otherwise it fails. The check's name is not consulted. -/
def gateClassify (result : String) : Bool :=
  result == "1"

/-- Go `strings.HasPrefix(name, "FLUENT")`, embedded on the character lists
of the strings (Lean's built-in `String.startsWith` has the same meaning but
is not kernel-reducible). -/
def fluentPrefixed (name : String) : Bool :=
  "FLUENT".data.isPrefixOf name.data

/-- pkg/monitoringcheck `Run` loop classification: the verdict printed for a
query result that arrived without error. `true` stands for the "OK" line,
`false` for the "FAIL" line. Transcribes the nested `if result == "1"` /
`strings.HasPrefix(query.Description, "FLUENT")` branches. -/
def classifyRun (name result : String) : Bool :=
  if result == "1" then
    ! fluentPrefixed name
  else
    fluentPrefixed name

/-- The `for _, query := range queries` loop of pkg/gatecheck
`runPrometheusChecks`: one `CheckResult` is appended per query, and `allPassed`
(initially `true`) is cleared by any query error or non-"1" value. The outcome
of `QueryPrometheus` for each query is supplied by `exec`. -/
def runPromLoop (queries : List PrometheusQueries)
    (exec : PrometheusQueries → Except String String) : List CheckResult × Bool :=
  match queries with
  | [] => ([], true)
  | q :: qs =>
    let rest := runPromLoop qs exec
    match exec q with
    | Except.error e =>
        ({ name := q.description, passed := false,
           message := "Query error: " ++ e } :: rest.1, false)
    | Except.ok r =>
        if gateClassify r then
          ({ name := q.description, passed := true, message := "Healthy" } :: rest.1,
           rest.2)
        else
          ({ name := q.description, passed := false,
             message := "Value: " ++ r ++ " (expected: 1)" } :: rest.1, false)

/-- Outcome of the Bitwarden credential lookup in `runPrometheusChecks`:
the `GetBitwardenItemJSON` call can fail, the subsequent `json.Unmarshal`
can fail, or both succeed yielding a username/password pair. -/
inductive BWResult where
  | getErr (msg : String)
  | parseErr (msg : String)
  | ok (username password : String)
deriving DecidableEq, Repr

/-- The outcomes of all external calls made during one gate-check run.
`podErr`/`fluxErr` are the return values of `podcheck.CheckPods` /
`fluxcheck.CheckFlux`; `cluster`/`shortCluster` are the resolved cluster
identifiers (after FQDN suffixing and env overrides); `exec` gives the
result of `monitoringcheck.QueryPrometheus` for each query. -/
structure GateEnv where
  podErr : Option String
  fluxErr : Option String
  bitwarden : Bool
  clcBW : String
  bwItem : BWResult
  cluster : String
  shortCluster : String
  exec : PrometheusQueries → Except String String

/-- pkg/gatecheck `runPrometheusChecks`: when the Bitwarden store is enabled
(flag or `CLUSTERCHECK_BW`) and the credential lookup fails, a single failed
"Prometheus Authentication" result is returned and the query table is not
executed; otherwise the query loop runs over `gateQueries`. -/
def runPrometheusChecks (env : GateEnv) : List CheckResult × Bool :=
  if env.bitwarden = true ∨ env.clcBW ≠ "" then
    match env.bwItem with
    | BWResult.getErr e =>
        ([{ name := "Prometheus Authentication", passed := false,
            message := "Failed to get Bitwarden credentials: " ++ e }], false)
    | BWResult.parseErr e =>
        ([{ name := "Prometheus Authentication", passed := false,
            message := "Failed to parse Bitwarden JSON: " ++ e }], false)
    | BWResult.ok _ _ =>
        runPromLoop (gateQueries env.cluster env.shortCluster) env.exec
  else
    runPromLoop (gateQueries env.cluster env.shortCluster) env.exec

/-- Recording one check outcome in the running aggregate: append to
`CheckResults`, increment `TotalChecks`, and increment exactly one of
`PassedChecks` / `FailedChecks` — the common shape of the three recording
blocks in pkg/gatecheck `GateCheck`. -/
def record (r : GateCheckResult) (c : CheckResult) : GateCheckResult :=
  { r with
    checkResults := r.checkResults ++ [c]
    totalChecks := r.totalChecks + 1
    passedChecks := r.passedChecks + (if c.passed then 1 else 0)
    failedChecks := r.failedChecks + (if c.passed then 0 else 1) }

/-- The initial aggregate `&GateCheckResult{CheckResults: []CheckResult{}}`:
all counters are Go zero values. -/
def gateInit : GateCheckResult :=
  { totalChecks := 0, passedChecks := 0, failedChecks := 0,
    healthScore := 0, checkResults := [], overallPassed := false }

/-- The `CheckResult` recorded for the pod-health category from the return
value of `podcheck.CheckPods`. -/
def podOutcome (podErr : Option String) : CheckResult :=
  match podErr with
  | none => { name := "Pod Health", passed := true,
              message := "All pods are in Running or Succeeded state" }
  | some e => { name := "Pod Health", passed := false, message := e }

/-- The `CheckResult` recorded for the Flux-resources category from the return
value of `fluxcheck.CheckFlux`. -/
def fluxOutcome (fluxErr : Option String) : CheckResult :=
  match fluxErr with
  | none => { name := "Flux Resources", passed := true,
              message := "All HelmReleases and Kustomizations are Ready" }
  | some e => { name := "Flux Resources", passed := false, message := e }

/-- The score-finalisation block of pkg/gatecheck `GateCheck`:
`HealthScore` is set to `(PassedChecks / TotalChecks) * 100` when
`TotalChecks > 0` (and left at its previous value otherwise), then
`OverallPassed := HealthScore >= 80.0`. -/
def finalizeResult (r : GateCheckResult) : GateCheckResult :=
  let hs : ℚ :=
    if r.totalChecks > 0 then
      ((r.passedChecks : ℚ) / (r.totalChecks : ℚ)) * 100
    else
      r.healthScore
  { r with healthScore := hs, overallPassed := decide ((80 : ℚ) ≤ hs) }

/-- pkg/gatecheck `GateCheck`: record the pod-health outcome, then the
Flux-resources outcome, then one outcome per result of
`runPrometheusChecks`, finalise the score, and return a non-nil error
exactly when the gate fails. The Go error carries the formatted score in
its text; the embedding keeps only the fixed part of the message. -/
def GateCheck (env : GateEnv) : GateCheckResult × Option String :=
  let r1 := record gateInit (podOutcome env.podErr)
  let r2 := record r1 (fluxOutcome env.fluxErr)
  let monitoringChecks := (runPrometheusChecks env).1
  let r3 := monitoringChecks.foldl record r2
  let r4 := finalizeResult r3
  if r4.overallPassed then
    (r4, none)
  else
    (r4, some "cluster health check failed")

/-- The `--gate-check` branch of `main`: exit code 1 when `GateCheck` returns
a non-nil error, 0 otherwise. -/
def mainGate (env : GateEnv) : Nat :=
  match (GateCheck env).2 with
  | some _ => 1
  | none => 0

/-- pkg/fluxcheck: one entry of a resource's `Status.Conditions`. -/
structure FluxCondition where
  type : String
  status : String
  message : String
deriving DecidableEq, Repr

/-- pkg/fluxcheck: the data of one listed HelmRelease or Kustomization that
`CheckFlux` consults. -/
structure FluxResource where
  ns : String
  name : String
  conditions : List FluxCondition
  revision : String
deriving DecidableEq, Repr

/-- The `for _, condition := range ...Status.Conditions` search in `CheckFlux`:
the first condition with `Type == "Ready"` (the loop `break`s at it). -/
def findReady : List FluxCondition → Option FluxCondition
  | [] => none
  | c :: cs => if c.type == "Ready" then some c else findReady cs

/-- How `CheckFlux` treats one resource. -/
inductive ResourceStatus where
  | ready
  | notReady (msg : String)
  | unknown
  | skipped
deriving DecidableEq, Repr

/-- Per-resource classification in `CheckFlux`: a Ready condition with status
"True" counts the resource ready; a Ready condition with any other status
records a not-ready failure with the condition's message; with no conditions
at all the resource is marked Unknown and recorded as failed ("No conditions
set"); a resource with a non-empty conditions list but no Ready-type
condition falls through both branches. -/
def classifyResource (r : FluxResource) : ResourceStatus :=
  match findReady r.conditions with
  | some c => if c.status == "True" then ResourceStatus.ready
              else ResourceStatus.notReady c.message
  | none => if r.conditions.isEmpty then ResourceStatus.unknown
            else ResourceStatus.skipped

/-- The strings a resource contributes to `failedResources` in `CheckFlux`. -/
def resourceFailures (kind : String) (r : FluxResource) : List String :=
  match classifyResource r with
  | ResourceStatus.ready => []
  | ResourceStatus.notReady msg =>
      [kind ++ " " ++ r.ns ++ "/" ++ r.name ++ ": " ++ msg]
  | ResourceStatus.unknown =>
      [kind ++ " " ++ r.ns ++ "/" ++ r.name ++ ": No conditions set"]
  | ResourceStatus.skipped => []

/-- pkg/fluxcheck `CheckFlux`, success path of the two list calls: given the
listed HelmReleases and Kustomizations, return a non-nil error exactly when
`failedResources` is non-empty (the error text counts the failures). -/
def CheckFlux (hrs ks : List FluxResource) : Option String :=
  let failed := (hrs.map (resourceFailures "HelmRelease")).flatten ++
                (ks.map (resourceFailures "Kustomization")).flatten
  if failed.length > 0 then
    some (toString failed.length ++ " resources not Ready")
  else
    none

/-- A gate-check environment whose pod and Flux probes both fail and in
which the APISERVER query errors out while every other query returns "1";
credentials come from the environment, not from Bitwarden. -/
def okEnv : GateEnv :=
  { podErr := some "pods down", fluxErr := some "flux down", bitwarden := false,
    clcBW := "", bwItem := BWResult.ok "u" "p", cluster := "cl", shortCluster := "cl",
    exec := fun q =>
      if q.description == "APISERVER" then Except.error "timeout"
      else Except.ok "1" }

/-- A gate-check environment in which the Bitwarden store is enabled and the
credential lookup fails; both probes succeed and every query would return
"1". -/
def bwFailEnv : GateEnv :=
  { podErr := none, fluxErr := none, bitwarden := true, clcBW := "",
    bwItem := BWResult.getErr "exit status 1", cluster := "cl", shortCluster := "cl",
    exec := fun _ => Except.ok "1" }

/-- A gate-check environment in which every probe and every query fails. -/
def failEnv : GateEnv :=
  { podErr := some "no api", fluxErr := some "no flux", bitwarden := false,
    clcBW := "", bwItem := BWResult.ok "u" "p", cluster := "cl", shortCluster := "cl",
    exec := fun _ => Except.error "connection refused" }

/-! ### Helper lemmas -/

theorem finalize_checkResults (r : GateCheckResult) :
    (finalizeResult r).checkResults = r.checkResults := rfl

theorem finalize_totalChecks (r : GateCheckResult) :
    (finalizeResult r).totalChecks = r.totalChecks := rfl

theorem finalize_passedChecks (r : GateCheckResult) :
    (finalizeResult r).passedChecks = r.passedChecks := rfl

theorem finalize_failedChecks (r : GateCheckResult) :
    (finalizeResult r).failedChecks = r.failedChecks := rfl

theorem finalize_healthScore (r : GateCheckResult) :
    (finalizeResult r).healthScore =
      if r.totalChecks > 0 then ((r.passedChecks : ℚ) / (r.totalChecks : ℚ)) * 100
      else r.healthScore := rfl

theorem finalize_overallPassed (r : GateCheckResult) :
    (finalizeResult r).overallPassed =
      decide ((80 : ℚ) ≤ (finalizeResult r).healthScore) := rfl

theorem countP_passed_add_countP_failed (cs : List CheckResult) :
    cs.countP (fun c => c.passed) + cs.countP (fun c => !c.passed) = cs.length := by
  induction cs with
  | nil => rfl
  | cons c cs ih =>
    simp only [List.countP_cons, List.length_cons]
    cases hc : c.passed
    · simp [hc]
      omega
    · simp [hc]
      omega

theorem foldl_record_totalChecks (cs : List CheckResult) (r : GateCheckResult) :
    (cs.foldl record r).totalChecks = r.totalChecks + cs.length := by
  induction cs generalizing r with
  | nil => simp
  | cons c cs ih =>
    rw [List.foldl_cons, ih]
    simp only [record, List.length_cons]
    omega

theorem foldl_record_passedChecks (cs : List CheckResult) (r : GateCheckResult) :
    (cs.foldl record r).passedChecks = r.passedChecks + cs.countP (fun c => c.passed) := by
  induction cs generalizing r with
  | nil => simp
  | cons c cs ih =>
    rw [List.foldl_cons, ih]
    simp only [record, List.countP_cons]
    ring

theorem foldl_record_failedChecks (cs : List CheckResult) (r : GateCheckResult) :
    (cs.foldl record r).failedChecks = r.failedChecks + cs.countP (fun c => !c.passed) := by
  induction cs generalizing r with
  | nil => simp
  | cons c cs ih =>
    rw [List.foldl_cons, ih]
    simp only [record, List.countP_cons]
    cases hc : c.passed
    · simp [hc]
      omega
    · simp [hc]

theorem foldl_record_healthScore (cs : List CheckResult) (r : GateCheckResult) :
    (cs.foldl record r).healthScore = r.healthScore := by
  induction cs generalizing r with
  | nil => rfl
  | cons c cs ih => rw [List.foldl_cons, ih]; rfl

theorem foldl_record_checkResults (cs : List CheckResult) (r : GateCheckResult) :
    (cs.foldl record r).checkResults = r.checkResults ++ cs := by
  induction cs generalizing r with
  | nil => simp
  | cons c cs ih =>
    rw [List.foldl_cons, ih]
    simp [record]

theorem runPromLoop_names (qs : List PrometheusQueries)
    (exec : PrometheusQueries → Except String String) :
    (runPromLoop qs exec).1.map (fun c => c.name) = qs.map (fun q => q.description) := by
  induction qs with
  | nil => rfl
  | cons q qs ih =>
    simp only [runPromLoop]
    cases exec q with
    | error e => simpa using ih
    | ok r =>
      by_cases h : gateClassify r = true
      · simpa [h] using ih
      · simp only [h]; simpa using ih

theorem gateQueries_descriptions (c s : String) :
    (gateQueries c s).map (fun q => q.description) =
      ["APISERVER", "CLUSTER", "FLUENTBIT_OK", "FLUENTD_OK", "GOLDPINGER", "KUBEDNS",
       "KUBELET", "NETWORKOPERATOR", "NODE", "STORAGECHECK", "PROMETHEUSAGENT",
       "SYSTEMPODS"] := rfl

theorem runPrometheusChecks_names (env : GateEnv) :
    (runPrometheusChecks env).1.map (fun c => c.name) = ["Prometheus Authentication"] ∨
    (runPrometheusChecks env).1.map (fun c => c.name) =
      (gateQueries env.cluster env.shortCluster).map (fun q => q.description) := by
  unfold runPrometheusChecks
  by_cases h : env.bitwarden = true ∨ env.clcBW ≠ ""
  · simp only [if_pos h]
    cases env.bwItem with
    | getErr e => left; rfl
    | parseErr e => left; rfl
    | ok u p => right; exact runPromLoop_names _ _
  · simp only [if_neg h]
    right; exact runPromLoop_names _ _

theorem gateCheck_fst (env : GateEnv) :
    (GateCheck env).1 =
      finalizeResult ((runPrometheusChecks env).1.foldl record
        (record (record gateInit (podOutcome env.podErr)) (fluxOutcome env.fluxErr))) := by
  simp only [GateCheck]
  split <;> rfl

theorem gateCheck_snd_none_iff (env : GateEnv) :
    (GateCheck env).2 = none ↔ (GateCheck env).1.overallPassed = true := by
  simp only [GateCheck]
  split <;> rename_i h <;> simp_all

theorem gateCheck_checkResults (env : GateEnv) :
    (GateCheck env).1.checkResults =
      podOutcome env.podErr :: fluxOutcome env.fluxErr :: (runPrometheusChecks env).1 := by
  rw [gateCheck_fst, finalize_checkResults, foldl_record_checkResults]
  rfl

theorem countP_name (l : List CheckResult) (p : String → Bool) :
    l.countP (fun c => p c.name) = (l.map (fun c => c.name)).countP p := by
  rw [List.countP_map]
  rfl

theorem podOutcome_name (e : Option String) : (podOutcome e).name = "Pod Health" := by
  cases e <;> rfl

theorem fluxOutcome_name (e : Option String) :
    (fluxOutcome e).name = "Flux Resources" := by
  cases e <;> rfl

theorem promChecks_no_category_name (env : GateEnv) (x : String)
    (hx : x = "Pod Health" ∨ x = "Flux Resources") :
    (runPrometheusChecks env).1.countP (fun c => c.name == x) = 0 := by
  rw [countP_name (runPrometheusChecks env).1 (fun s => s == x)]
  rcases runPrometheusChecks_names env with h | h <;> rw [h]
  · rcases hx with rfl | rfl <;> decide
  · rw [gateQueries_descriptions]
    rcases hx with rfl | rfl <;> decide

/-! ### Claim theorems -/

/-- C1, counterexample: in gate-check mode the query table contains the
FLUENT-prefixed check "FLUENTBIT_OK", and when its query returns the raw
result "1" the check is classified as passed, not failed — so polarity is
not inverted in every mode that classifies metric results. -/
theorem gateMode_fluent_one_passes_cex :
    fluentPrefixed "FLUENTBIT_OK" = true ∧
    "FLUENTBIT_OK" ∈ (gateQueries "cl" "cl").map (fun q => q.description) ∧
    (runPromLoop (gateQueries "cl" "cl") (fun _ => Except.ok "1")).1.countP
      (fun c => c.name == "FLUENTBIT_OK" && c.passed) = 1 ∧
    (runPromLoop (gateQueries "cl" "cl") (fun _ => Except.ok "1")).1.countP
      (fun c => c.name == "FLUENTBIT_OK" && !c.passed) = 0 := by
  refine ⟨by decide, by decide, by decide, by decide⟩

/-- C1 (amended): the FLUENT polarity inversion applies only in the default
monitoring mode (`Run`): there, a FLUENT-prefixed check with raw result "1"
is classified as failed and any other raw result as passed. In gate-check
mode (`runPrometheusChecks`) the classification ignores the name: "1" is
passed and anything else is failed, also for FLUENT-prefixed checks. -/
theorem fluent_inversion_run_mode_only (name raw : String)
    (hf : fluentPrefixed name = true) :
    classifyRun name "1" = false ∧
    (raw ≠ "1" → classifyRun name raw = true) ∧
    gateClassify "1" = true ∧
    (raw ≠ "1" → gateClassify raw = false) := by
  refine ⟨?_, ?_, rfl, ?_⟩
  · simp [classifyRun, hf]
  · intro h
    have hb : (raw == "1") = false := beq_eq_false_iff_ne.mpr h
    simp [classifyRun, hb, hf]
  · intro h
    have hb : (raw == "1") = false := beq_eq_false_iff_ne.mpr h
    simp [gateClassify, hb]

/-- Witness for `fluent_inversion_run_mode_only` at the Run-mode table entry
"FLUENTBITERRORS" and the raw result "0". -/
theorem fluent_inversion_run_mode_only_witness :
    fluentPrefixed "FLUENTBITERRORS" = true ∧
    (classifyRun "FLUENTBITERRORS" "1" = false ∧
     ("0" ≠ "1" → classifyRun "FLUENTBITERRORS" "0" = true) ∧
     gateClassify "1" = true ∧
     ("0" ≠ "1" → gateClassify "0" = false)) :=
  ⟨by decide, fluent_inversion_run_mode_only "FLUENTBITERRORS" "0" (by decide)⟩

/-- C2: classification compares the raw result with the literal string "1",
not numerically: "1.0" behaves like "0" in both classifying modes, and for a
name without the FLUENT prefix, "1" passes and any other string fails — in
Run mode and in gate-check mode alike. -/
theorem classification_strict_lexical :
    (∀ n : String, classifyRun n "1.0" = classifyRun n "0") ∧
    gateClassify "1.0" = gateClassify "0" ∧
    (∀ n s : String, fluentPrefixed n = false → s ≠ "1" →
      classifyRun n "1" = true ∧ classifyRun n s = false ∧
      gateClassify "1" = true ∧ gateClassify s = false) := by
  refine ⟨?_, by decide, ?_⟩
  · intro n
    have h10 : ("1.0" == "1") = false := by decide
    have h0 : ("0" == "1") = false := by decide
    simp [classifyRun, h10, h0]
  · intro n s hn hs
    have hb : (s == "1") = false := beq_eq_false_iff_ne.mpr hs
    refine ⟨?_, ?_, rfl, ?_⟩
    · simp [classifyRun, hn]
    · simp [classifyRun, hb, hn]
    · simp [gateClassify, hb]

/-- Witness for `classification_strict_lexical` at the name "APISERVER" and
the raw result "0". -/
theorem classification_strict_lexical_witness :
    fluentPrefixed "APISERVER" = false ∧
    (classifyRun "APISERVER" "1" = true ∧ classifyRun "APISERVER" "0" = false ∧
     gateClassify "1" = true ∧ gateClassify "0" = false) :=
  ⟨by decide, classification_strict_lexical.2.2 "APISERVER" "0" (by decide) (by decide)⟩

/-- C3: for any sequence of recorded outcomes the finalised health score is
100 * passed / total, and exactly 0 when no check was recorded; in a
gate-check run (where at least the two category outcomes are always
recorded) the score always equals 100 * passed / total. -/
theorem healthScore_formula :
    (∀ cs : List CheckResult,
      (finalizeResult (cs.foldl record gateInit)).healthScore =
        if cs.length = 0 then 0
        else 100 * (cs.countP (fun c => c.passed) : ℚ) / (cs.length : ℚ)) ∧
    (∀ env : GateEnv,
      (GateCheck env).1.healthScore =
        100 * ((GateCheck env).1.passedChecks : ℚ) / ((GateCheck env).1.totalChecks : ℚ)) := by
  constructor
  · intro cs
    rw [finalize_healthScore, foldl_record_totalChecks, foldl_record_passedChecks,
      foldl_record_healthScore]
    simp only [gateInit, Nat.zero_add]
    by_cases h0 : cs.length = 0
    · simp [h0]
    · rw [if_pos (Nat.pos_of_ne_zero h0), if_neg h0]
      ring
  · intro env
    rw [gateCheck_fst, finalize_healthScore, finalize_passedChecks, finalize_totalChecks]
    rw [if_pos]
    · ring
    · rw [foldl_record_totalChecks]
      simp only [record, gateInit]
      omega

/-- C4: the finalised gate-check result passes overall exactly when the
health score is at least 80, with the boundary score 80 itself passing
(witnessed by a 4-of-5 outcome sequence, whose score is exactly 80). -/
theorem overallPassed_iff_threshold :
    (∀ r : GateCheckResult,
      (finalizeResult r).overallPassed =
        decide ((80 : ℚ) ≤ (finalizeResult r).healthScore)) ∧
    (∀ env : GateEnv,
      ((GateCheck env).1.overallPassed = true ↔
        (80 : ℚ) ≤ (GateCheck env).1.healthScore)) ∧
    (finalizeResult
        (([{ name := "A", passed := true, message := "" },
           { name := "B", passed := true, message := "" },
           { name := "C", passed := true, message := "" },
           { name := "D", passed := true, message := "" },
           { name := "E", passed := false, message := "" }] : List CheckResult).foldl
          record gateInit)).healthScore = 80 ∧
    (finalizeResult
        (([{ name := "A", passed := true, message := "" },
           { name := "B", passed := true, message := "" },
           { name := "C", passed := true, message := "" },
           { name := "D", passed := true, message := "" },
           { name := "E", passed := false, message := "" }] : List CheckResult).foldl
          record gateInit)).overallPassed = true := by
  have h80 : (finalizeResult
      (([{ name := "A", passed := true, message := "" },
         { name := "B", passed := true, message := "" },
         { name := "C", passed := true, message := "" },
         { name := "D", passed := true, message := "" },
         { name := "E", passed := false, message := "" }] : List CheckResult).foldl
        record gateInit)).healthScore = 80 := by
    rw [finalize_healthScore, foldl_record_totalChecks, foldl_record_passedChecks]
    norm_num [gateInit, List.countP_cons]
  refine ⟨fun r => rfl, ?_, h80, ?_⟩
  · intro env
    rw [gateCheck_fst, finalize_overallPassed]
    exact decide_eq_true_iff
  · rw [finalize_overallPassed, h80]
    norm_num

/-- C5: recording one outcome increments the total counter by one and
exactly one of the passed/failed counters by one, so at every state reached
by recording a sequence of outcomes — and in particular in the final result
of every gate-check run — totalChecks = passedChecks + failedChecks. -/
theorem counters_invariant :
    (∀ (r : GateCheckResult) (c : CheckResult),
      (record r c).totalChecks = r.totalChecks + 1 ∧
      (record r c).passedChecks = r.passedChecks + (if c.passed then 1 else 0) ∧
      (record r c).failedChecks = r.failedChecks + (if c.passed then 0 else 1)) ∧
    (∀ cs : List CheckResult,
      (cs.foldl record gateInit).totalChecks =
        (cs.foldl record gateInit).passedChecks + (cs.foldl record gateInit).failedChecks) ∧
    (∀ env : GateEnv,
      (GateCheck env).1.totalChecks =
        (GateCheck env).1.passedChecks + (GateCheck env).1.failedChecks) := by
  refine ⟨fun r c => ⟨rfl, rfl, rfl⟩, ?_, ?_⟩
  · intro cs
    rw [foldl_record_totalChecks, foldl_record_passedChecks, foldl_record_failedChecks]
    have hc := countP_passed_add_countP_failed cs
    simp only [gateInit]
    omega
  · intro env
    rw [gateCheck_fst, finalize_totalChecks, finalize_passedChecks, finalize_failedChecks,
      foldl_record_totalChecks, foldl_record_passedChecks, foldl_record_failedChecks]
    have hc := countP_passed_add_countP_failed (runPrometheusChecks env).1
    simp only [record, gateInit]
    cases (podOutcome env.podErr).passed <;> cases (fluxOutcome env.fluxErr).passed <;>
      simp <;> omega

theorem gateCheck_fst_foldl (env : GateEnv) :
    (GateCheck env).1 =
      finalizeResult ((podOutcome env.podErr :: fluxOutcome env.fluxErr ::
        (runPrometheusChecks env).1).foldl record gateInit) :=
  gateCheck_fst env

theorem gateCheck_names (env : GateEnv) :
    (GateCheck env).1.checkResults.map (fun c => c.name) =
      "Pod Health" :: "Flux Resources" ::
        (runPrometheusChecks env).1.map (fun c => c.name) := by
  rw [gateCheck_checkResults]
  simp [podOutcome_name, fluxOutcome_name]

/-- C6: a pod-probe error is recorded as the single failed "Pod Health"
outcome carrying the error text, and the Flux and metric categories are
still recorded after it; analogously a Flux-probe error is recorded as the
single failed "Flux Resources" outcome without dropping the metric
category. -/
theorem probe_error_tolerated (env : GateEnv) (msg : String)
    (hp : env.podErr = some msg) :
    (GateCheck env).1.checkResults =
      { name := "Pod Health", passed := false, message := msg } ::
        fluxOutcome env.fluxErr :: (runPrometheusChecks env).1 ∧
    (GateCheck env).1.checkResults.countP (fun c => c.name == "Pod Health") = 1 ∧
    (∀ msg2, env.fluxErr = some msg2 →
      (GateCheck env).1.checkResults =
        { name := "Pod Health", passed := false, message := msg } ::
          { name := "Flux Resources", passed := false, message := msg2 } ::
            (runPrometheusChecks env).1 ∧
      (GateCheck env).1.checkResults.countP (fun c => c.name == "Flux Resources") = 1) := by
  have hcr := gateCheck_checkResults env
  rw [hp] at hcr
  refine ⟨hcr, ?_, ?_⟩
  · rw [countP_name (GateCheck env).1.checkResults (fun s => s == "Pod Health"),
      gateCheck_names env]
    rcases runPrometheusChecks_names env with h | h <;> rw [h]
    · decide
    · rw [gateQueries_descriptions]
      decide
  · intro msg2 h2
    rw [h2] at hcr
    refine ⟨hcr, ?_⟩
    rw [countP_name (GateCheck env).1.checkResults (fun s => s == "Flux Resources"),
      gateCheck_names env]
    rcases runPrometheusChecks_names env with h | h <;> rw [h]
    · decide
    · rw [gateQueries_descriptions]
      decide

/-- Witness for `probe_error_tolerated` at `okEnv`. -/
theorem probe_error_tolerated_witness :
    okEnv.podErr = some "pods down" ∧
    ((GateCheck okEnv).1.checkResults =
      { name := "Pod Health", passed := false, message := "pods down" } ::
        fluxOutcome okEnv.fluxErr :: (runPrometheusChecks okEnv).1 ∧
    (GateCheck okEnv).1.checkResults.countP (fun c => c.name == "Pod Health") = 1 ∧
    (∀ msg2, okEnv.fluxErr = some msg2 →
      (GateCheck okEnv).1.checkResults =
        { name := "Pod Health", passed := false, message := "pods down" } ::
          { name := "Flux Resources", passed := false, message := msg2 } ::
            (runPrometheusChecks okEnv).1 ∧
      (GateCheck okEnv).1.checkResults.countP
        (fun c => c.name == "Flux Resources") = 1)) :=
  ⟨rfl, probe_error_tolerated okEnv "pods down" rfl⟩

/-- C7: the gate-check exit-code contract: `GateCheck` returns a non-nil
error exactly when the finalised result fails the gate, and `main` exits
with 0 exactly when the gate passed (1 otherwise). -/
theorem exit_code_contract (env : GateEnv) :
    ((GateCheck env).2 ≠ none ↔ (GateCheck env).1.overallPassed = false) ∧
    (mainGate env = 0 ↔ (GateCheck env).1.overallPassed = true) ∧
    (mainGate env = 1 ↔ (GateCheck env).1.overallPassed = false) := by
  have h := gateCheck_snd_none_iff env
  cases hs : (GateCheck env).2 with
  | none =>
    rw [hs] at h
    have hov : (GateCheck env).1.overallPassed = true := h.mp rfl
    simp [mainGate, hs, hov]
  | some m =>
    rw [hs] at h
    have hov : (GateCheck env).1.overallPassed = false := by
      cases hb : (GateCheck env).1.overallPassed
      · rfl
      · exact absurd (h.mpr hb) (by simp)
    simp [mainGate, hs, hov]

/-- C8, counterexample: with the Bitwarden store enabled and the credential
lookup failing, the metric-query table is skipped entirely — the run records
only a single "Prometheus Authentication" failure, and the table entry
"APISERVER" contributes no check outcome at all, although the pod and Flux
categories ran without error. -/
theorem bitwarden_failure_drops_table_cex :
    "APISERVER" ∈ (gateQueries bwFailEnv.cluster bwFailEnv.shortCluster).map
      (fun q => q.description) ∧
    (GateCheck bwFailEnv).1.checkResults.map (fun c => c.name) =
      ["Pod Health", "Flux Resources", "Prometheus Authentication"] ∧
    (GateCheck bwFailEnv).1.checkResults.countP (fun c => c.name == "APISERVER") = 0 := by
  have hpn : (runPrometheusChecks bwFailEnv).1.map (fun c => c.name) =
      ["Prometheus Authentication"] := rfl
  refine ⟨by decide, ?_, ?_⟩
  · rw [gateCheck_names bwFailEnv, hpn]
  · rw [countP_name (GateCheck bwFailEnv).1.checkResults (fun s => s == "APISERVER"),
      gateCheck_names bwFailEnv, hpn]
    decide

/-- C8 (amended): when the Bitwarden credential lookup is not requested, or
is requested and succeeds, every entry of the static metric-query table
contributes exactly one check outcome to the final result — regardless of
pod-probe, Flux-probe, or per-query errors. When the Bitwarden lookup is
requested and fails, the table is skipped and a single failed "Prometheus
Authentication" outcome is recorded in its place. -/
theorem table_entries_recorded_once (env : GateEnv)
    (h : (env.bitwarden = false ∧ env.clcBW = "") ∨
      ∃ u p, env.bwItem = BWResult.ok u p) :
    (GateCheck env).1.checkResults.map (fun c => c.name) =
      "Pod Health" :: "Flux Resources" ::
        (gateQueries env.cluster env.shortCluster).map (fun q => q.description) ∧
    (gateQueries env.cluster env.shortCluster).map (fun q => q.description) =
      ["APISERVER", "CLUSTER", "FLUENTBIT_OK", "FLUENTD_OK", "GOLDPINGER", "KUBEDNS",
       "KUBELET", "NETWORKOPERATOR", "NODE", "STORAGECHECK", "PROMETHEUSAGENT",
       "SYSTEMPODS"] ∧
    ("Pod Health" :: "Flux Resources" ::
      (gateQueries env.cluster env.shortCluster).map (fun q => q.description)).Nodup := by
  have hloop : (runPrometheusChecks env).1 =
      (runPromLoop (gateQueries env.cluster env.shortCluster) env.exec).1 := by
    unfold runPrometheusChecks
    rcases h with ⟨hb, hc⟩ | ⟨u, p, hok⟩
    · have hcond : ¬(env.bitwarden = true ∨ env.clcBW ≠ "") := by simp [hb, hc]
      rw [if_neg hcond]
    · by_cases hcond : env.bitwarden = true ∨ env.clcBW ≠ ""
      · rw [if_pos hcond, hok]
      · rw [if_neg hcond]
  refine ⟨?_, gateQueries_descriptions _ _, ?_⟩
  · rw [gateCheck_names env, hloop, runPromLoop_names]
  · rw [gateQueries_descriptions]
    decide

/-- Witness for `table_entries_recorded_once` at `okEnv`. -/
theorem table_entries_recorded_once_witness :
    (okEnv.bitwarden = false ∧ okEnv.clcBW = "") ∧
    ((GateCheck okEnv).1.checkResults.map (fun c => c.name) =
      "Pod Health" :: "Flux Resources" ::
        (gateQueries okEnv.cluster okEnv.shortCluster).map (fun q => q.description) ∧
    (gateQueries okEnv.cluster okEnv.shortCluster).map (fun q => q.description) =
      ["APISERVER", "CLUSTER", "FLUENTBIT_OK", "FLUENTD_OK", "GOLDPINGER", "KUBEDNS",
       "KUBELET", "NETWORKOPERATOR", "NODE", "STORAGECHECK", "PROMETHEUSAGENT",
       "SYSTEMPODS"] ∧
    ("Pod Health" :: "Flux Resources" ::
      (gateQueries okEnv.cluster okEnv.shortCluster).map (fun q => q.description)).Nodup) :=
  ⟨⟨rfl, rfl⟩, table_entries_recorded_once okEnv (Or.inl ⟨rfl, rfl⟩)⟩

/-- C9, counterexample: a HelmRelease whose status has a non-empty
conditions list without any Ready-type condition is not classified as
unknown and contributes no failure at all — a run containing only this
resource reports the Flux category as passing. -/
theorem no_ready_condition_skipped_cex :
    (({ ns := "default", name := "app",
        conditions := [{ type := "Released", status := "True", message := "install ok" }],
        revision := "v1" } : FluxResource).conditions.any
          (fun c => c.type == "Ready") = false) ∧
    classifyResource
      { ns := "default", name := "app",
        conditions := [{ type := "Released", status := "True", message := "install ok" }],
        revision := "v1" } ≠ ResourceStatus.unknown ∧
    resourceFailures "HelmRelease"
      { ns := "default", name := "app",
        conditions := [{ type := "Released", status := "True", message := "install ok" }],
        revision := "v1" } = [] ∧
    CheckFlux
      [{ ns := "default", name := "app",
         conditions := [{ type := "Released", status := "True", message := "install ok" }],
         revision := "v1" }] [] = none := by
  decide

/-- C9 (amended): a listed resource whose conditions list is empty is
classified as unknown and recorded as a failure ("No conditions set"), so a
run containing such a resource reports the Flux category as failed; a
resource with a non-empty conditions list but no Ready-type condition is
skipped silently instead. -/
theorem empty_conditions_unknown_failed (hrs ks : List FluxResource)
    (r : FluxResource) (hr : r.conditions = []) :
    classifyResource r = ResourceStatus.unknown ∧
    resourceFailures "HelmRelease" r ≠ [] ∧
    (r ∈ hrs → CheckFlux hrs ks ≠ none) ∧
    (r ∈ ks → CheckFlux hrs ks ≠ none) := by
  have hclass : classifyResource r = ResourceStatus.unknown := by
    unfold classifyResource
    rw [hr]
    rfl
  have hfailHR : resourceFailures "HelmRelease" r =
      ["HelmRelease" ++ " " ++ r.ns ++ "/" ++ r.name ++ ": No conditions set"] := by
    unfold resourceFailures
    rw [hclass]
  have hfailK : resourceFailures "Kustomization" r =
      ["Kustomization" ++ " " ++ r.ns ++ "/" ++ r.name ++ ": No conditions set"] := by
    unfold resourceFailures
    rw [hclass]
  refine ⟨hclass, by simp [hfailHR], ?_, ?_⟩
  · intro hmem
    have hx : ("HelmRelease" ++ " " ++ r.ns ++ "/" ++ r.name ++ ": No conditions set") ∈
        (hrs.map (resourceFailures "HelmRelease")).flatten ++
          (ks.map (resourceFailures "Kustomization")).flatten := by
      refine List.mem_append_left _ (List.mem_flatten.mpr
        ⟨resourceFailures "HelmRelease" r, List.mem_map_of_mem _ hmem, ?_⟩)
      rw [hfailHR]
      exact List.mem_singleton_self _
    have hpos := List.length_pos.mpr (List.ne_nil_of_mem hx)
    simp only [CheckFlux]
    rw [if_pos hpos]
    simp
  · intro hmem
    have hx : ("Kustomization" ++ " " ++ r.ns ++ "/" ++ r.name ++ ": No conditions set") ∈
        (hrs.map (resourceFailures "HelmRelease")).flatten ++
          (ks.map (resourceFailures "Kustomization")).flatten := by
      refine List.mem_append_right _ (List.mem_flatten.mpr
        ⟨resourceFailures "Kustomization" r, List.mem_map_of_mem _ hmem, ?_⟩)
      rw [hfailK]
      exact List.mem_singleton_self _
    have hpos := List.length_pos.mpr (List.ne_nil_of_mem hx)
    simp only [CheckFlux]
    rw [if_pos hpos]
    simp

/-- Witness for `empty_conditions_unknown_failed` at a single HelmRelease
with an empty conditions list. -/
theorem empty_conditions_unknown_failed_witness :
    ({ ns := "flux-system", name := "app", conditions := [],
       revision := "v1" } : FluxResource).conditions = [] ∧
    CheckFlux
      [{ ns := "flux-system", name := "app", conditions := [], revision := "v1" }]
      [] ≠ none :=
  ⟨rfl,
    (empty_conditions_unknown_failed
      [{ ns := "flux-system", name := "app", conditions := [], revision := "v1" }] []
      { ns := "flux-system", name := "app", conditions := [], revision := "v1" }
      rfl).2.2.1 (List.mem_singleton_self _)⟩

/-- C10: whenever `GateCheck` reports failure (non-nil error), the returned
result is fully finalised: the complete outcome list is present, the
counters agree with it, the health score and the overall verdict are
computed from the counters, and the verdict is false. -/
theorem failed_gate_returns_full_result (env : GateEnv)
    (h : (GateCheck env).2 ≠ none) :
    (GateCheck env).1.checkResults =
      podOutcome env.podErr :: fluxOutcome env.fluxErr :: (runPrometheusChecks env).1 ∧
    (GateCheck env).1.totalChecks = (GateCheck env).1.checkResults.length ∧
    (GateCheck env).1.passedChecks =
      (GateCheck env).1.checkResults.countP (fun c => c.passed) ∧
    (GateCheck env).1.failedChecks =
      (GateCheck env).1.checkResults.countP (fun c => !c.passed) ∧
    (GateCheck env).1.healthScore =
      100 * ((GateCheck env).1.passedChecks : ℚ) / ((GateCheck env).1.totalChecks : ℚ) ∧
    (GateCheck env).1.overallPassed =
      decide ((80 : ℚ) ≤ (GateCheck env).1.healthScore) ∧
    (GateCheck env).1.overallPassed = false := by
  refine ⟨gateCheck_checkResults env, ?_, ?_, ?_, ?_, ?_, ?_⟩
  · rw [gateCheck_fst_foldl, finalize_totalChecks, finalize_checkResults,
      foldl_record_totalChecks, foldl_record_checkResults]
    simp [gateInit]
  · rw [gateCheck_fst_foldl, finalize_passedChecks, finalize_checkResults,
      foldl_record_passedChecks, foldl_record_checkResults]
    simp [gateInit]
  · rw [gateCheck_fst_foldl, finalize_failedChecks, finalize_checkResults,
      foldl_record_failedChecks, foldl_record_checkResults]
    simp [gateInit]
  · rw [gateCheck_fst, finalize_healthScore, finalize_passedChecks, finalize_totalChecks]
    rw [if_pos]
    · ring
    · rw [foldl_record_totalChecks]
      simp only [record, gateInit]
      omega
  · rw [gateCheck_fst]
    exact finalize_overallPassed _
  · cases hb : (GateCheck env).1.overallPassed
    · rfl
    · exact absurd ((gateCheck_snd_none_iff env).mpr hb) h

theorem failEnv_overall_false : (GateCheck failEnv).1.overallPassed = false := by
  have htot : ((runPrometheusChecks failEnv).1.foldl record
      (record (record gateInit (podOutcome failEnv.podErr))
        (fluxOutcome failEnv.fluxErr))).totalChecks = 14 := by
    rw [foldl_record_totalChecks]
    rfl
  have hp : ((runPrometheusChecks failEnv).1.foldl record
      (record (record gateInit (podOutcome failEnv.podErr))
        (fluxOutcome failEnv.fluxErr))).passedChecks = 0 := by
    rw [foldl_record_passedChecks]
    rfl
  rw [gateCheck_fst, finalize_overallPassed, finalize_healthScore, htot, hp]
  norm_num

theorem failEnv_gate_error : (GateCheck failEnv).2 ≠ none := by
  intro hnone
  have hov := (gateCheck_snd_none_iff failEnv).mp hnone
  rw [failEnv_overall_false] at hov
  exact Bool.false_ne_true hov

/-- Witness for `failed_gate_returns_full_result` at `failEnv`. -/
theorem failed_gate_returns_full_result_witness :
    (GateCheck failEnv).2 ≠ none ∧
    ((GateCheck failEnv).1.checkResults =
      podOutcome failEnv.podErr :: fluxOutcome failEnv.fluxErr ::
        (runPrometheusChecks failEnv).1 ∧
    (GateCheck failEnv).1.totalChecks = (GateCheck failEnv).1.checkResults.length ∧
    (GateCheck failEnv).1.passedChecks =
      (GateCheck failEnv).1.checkResults.countP (fun c => c.passed) ∧
    (GateCheck failEnv).1.failedChecks =
      (GateCheck failEnv).1.checkResults.countP (fun c => !c.passed) ∧
    (GateCheck failEnv).1.healthScore =
      100 * ((GateCheck failEnv).1.passedChecks : ℚ) /
        ((GateCheck failEnv).1.totalChecks : ℚ) ∧
    (GateCheck failEnv).1.overallPassed =
      decide ((80 : ℚ) ≤ (GateCheck failEnv).1.healthScore) ∧
    (GateCheck failEnv).1.overallPassed = false) :=
  ⟨failEnv_gate_error, failed_gate_returns_full_result failEnv failEnv_gate_error⟩

end Clustercheck
